import Mathlib

/-!
Shallow embedding of the streaming conversation session controller of the
ReactAgent frontend (src/src/context/AppContext.tsx, second revision in the
file, and src/src/api/FastAPIClient.ts).  Pure functions below are translated
directly from the TypeScript source; each definition cites the source lines
it embeds.  Timers and asynchronous callbacks are modelled as explicit events
applied to explicit state, in the order the single-threaded event loop can
deliver them.
-/

namespace ReactAgent

/-- Character-by-character test that the first list leads (is an initial
segment of) the second; the character-level meaning of the JavaScript
String.prototype.startsWith used by the controller. -/
def charsLead : List Char → List Char → Bool
  | [], _ => true
  | _ :: _, [] => false
  | a :: as, b :: bs => if a = b then charsLead as bs else false

/-- Embedding of the JavaScript test s.startsWith(pre). -/
def jsStartsWith (s pre : String) : Bool :=
  charsLead pre.data s.data

/-- Character-by-character search for an occurrence of the second list inside
the first. -/
def charsContain (hay pat : List Char) : Bool :=
  match hay with
  | [] => pat.isEmpty
  | _ :: t => charsLead pat hay || charsContain t pat

/-- Embedding of the JavaScript test s.includes(pat). -/
def jsIncludes (s pat : String) : Bool :=
  charsContain s.data pat.data

/-- Embedding of the JavaScript s.toLowerCase(): lower each character. -/
def jsToLower (s : String) : String :=
  ⟨s.data.map Char.toLower⟩

/-- Embedding of the JavaScript string expression x || d, where an absent or
empty string is falsy and replaced by the default d. -/
def jsOrDefault (o : Option String) (d : String) : String :=
  match o with
  | some s => if s = "" then d else s
  | none => d

/-- The provider test used throughout AppContext.tsx:
prov && prov.toLowerCase() === 'ollama', with prov read from the persistent
store (null when the key is absent). -/
def providerIsOllama (prov : Option String) : Bool :=
  match prov with
  | some p => jsToLower p = "ollama"
  | none => false

/-- RateLimitState of the spec: the isRateLimited flag plus the
rateLimitCooldown seconds of AppContext.tsx. -/
structure RateLimitState where
  active : Bool
  remaining : Nat
deriving DecidableEq

/-- Embedding of startRateLimitCooldown (AppContext.tsx lines 497-520): for a
local (ollama) provider it clears the state and returns; otherwise it sets
active and 60 seconds remaining. -/
def startRateLimitCooldown (prov : Option String) (_rl : RateLimitState) : RateLimitState :=
  if providerIsOllama prov then
    { active := false, remaining := 0 }
  else
    { active := true, remaining := 60 }

/-- Message roles of the Conversation (AppContext.tsx lines 191-208). -/
inductive Role where
  | user
  | assistant
deriving DecidableEq

/-- A Conversation entry: role, content, and the metadata flags the
controller reads back (isIndicator, isError).  The opaque id and timestamp
carry no logic and are omitted. -/
structure Msg where
  role : Role
  content : String
  isIndicator : Bool
  isError : Bool
deriving DecidableEq

/-- The literal content marker every indicator message carries
(AppContext.tsx line 608: content Agent followed by the status text). -/
def agentTag : String := "Agent "

/-- The filter and update condition m.role === 'assistant' &&
m.content.startsWith('Agent ') used at AppContext.tsx lines 607 and 619. -/
def isAgentAssistant (m : Msg) : Bool :=
  decide (m.role = Role.assistant) && jsStartsWith m.content agentTag

/-- The trailing-indicator condition last.role === 'assistant' &&
last.content.startsWith('Agent ') && last.metadata?.isIndicator used at
AppContext.tsx lines 619 and 651. -/
def isTrailingIndicatorShape (m : Msg) : Bool :=
  isAgentAssistant m && m.isIndicator

/-- The user message appended by addUserMessage (AppContext.tsx 522-531). -/
def userMsg (text : String) : Msg :=
  { role := .user, content := text, isIndicator := false, isError := false }

/-- The indicator message materialized by the 300ms agent-event debounce
timer (AppContext.tsx line 608). -/
def indicatorMsg (status : String) : Msg :=
  { role := .assistant, content := agentTag ++ jsToLower status,
    isIndicator := true, isError := false }

/-- The final assistant message committed on a terminal answer
(AppContext.tsx lines 632-645); metadata carries no isIndicator. -/
def answerMsg (content : String) : Msg :=
  { role := .assistant, content := content, isIndicator := false, isError := false }

/-- The error-flagged assistant message committed on a terminal stream error
(AppContext.tsx lines 694-700 and 709-715). -/
def errMsgOf (content : String) : Msg :=
  { role := .assistant, content := content, isIndicator := false, isError := true }

/-- Conversation mutation run when the indicator debounce timer fires
(AppContext.tsx lines 605-613): drop every assistant message whose content
starts with Agent, then append a fresh indicator. -/
def indicatorFire (status : String) (ms : List Msg) : List Msg :=
  (ms.filter fun m => !isAgentAssistant m) ++ [indicatorMsg status]

/-- Conversation mutation run by a later agent event once the indicator is
visible (AppContext.tsx lines 616-625): update the trailing indicator content
in place, otherwise leave the list untouched. -/
def indicatorUpdate (status : String) (ms : List Msg) : List Msg :=
  match ms.getLast? with
  | none => ms
  | some last =>
      if isTrailingIndicatorShape last then
        ms.dropLast ++ [{ last with content := agentTag ++ jsToLower status }]
      else
        ms

/-- Conversation mutation replaceFinal of the answer handler (AppContext.tsx
lines 650-655): overwrite a trailing indicator with the final message,
otherwise append the final message. -/
def replaceFinal (final : Msg) (ms : List Msg) : List Msg :=
  match ms.getLast? with
  | none => [final]
  | some last =>
      if isTrailingIndicatorShape last then
        ms.dropLast ++ [final]
      else
        ms ++ [final]

/-- Conversation mutation of the terminal-error branches (AppContext.tsx
lines 701 and 716): replace the trailing message whatever it is, or start the
list with the error message when the list is empty. -/
def replaceLast (m : Msg) (ms : List Msg) : List Msg :=
  if ms.isEmpty then [m] else ms.dropLast ++ [m]

/-- The Conversation mutations a single submission can run, in any order the
event loop can deliver them: the debounce-timer fire, an in-place indicator
update, the terminal answer commit, a terminal error that replaces the
trailing message, and the terminal error branches that leave the Conversation
untouched (local-provider busy notice, connection error). -/
inductive ConvEvent where
  | agentFire (status : String)
  | agentUpdate (status : String)
  | answer (content : String)
  | errorReplace (content : String)
  | errorKeep
deriving DecidableEq

/-- One Conversation mutation step of the submission event handlers. -/
def convStep (ms : List Msg) : ConvEvent → List Msg
  | .agentFire status => indicatorFire status ms
  | .agentUpdate status => indicatorUpdate status ms
  | .answer content => replaceFinal (answerMsg content) ms
  | .errorReplace content => replaceLast (errMsgOf content) ms
  | .errorKeep => ms

/-- Invariant of claim C4: every message before the last one is not an
indicator, hence any indicator present is the last element and there is at
most one. -/
def indicatorOnlyLast (ms : List Msg) : Prop :=
  ∀ m ∈ ms.dropLast, m.isIndicator = false

/-- Well-formedness of indicators: every indicator in the Conversation is an
assistant message whose content starts with the Agent tag.  True of every
indicator the controller ever constructs. -/
def indicatorWF (ms : List Msg) : Prop :=
  ∀ m ∈ ms, m.isIndicator = true →
    m.role = Role.assistant ∧ jsStartsWith m.content agentTag = true

/-- Controller state read and written by the sendToAgent guard section
(AppContext.tsx lines 536-568): the single-flight lock sendingRef, the
active-request text activeRequestRef, the model-status booleans, the
rate-limit flag, the selected provider, and the state mutated on a passing
call (messages, isLoading, lastUserMessage). -/
structure CtrlGuards where
  sending : Bool
  activeRequest : Option String
  isModelLoading : Bool
  isModelUnloading : Bool
  isProviderBusy : Bool
  isRateLimited : Bool
  provider : Option String
  messages : List Msg
  isLoading : Bool
  lastUserMessage : String
deriving DecidableEq

/-- Embedding of the guard section and entry actions of sendToAgent
(AppContext.tsx lines 536-568).  The Bool result records whether the call
passed the guards and proceeded to open the stream connection; a rejected
call returns the state unchanged. -/
def sendToAgentEntry (s : CtrlGuards) (text : String) : CtrlGuards × Bool :=
  if s.sending then (s, false)
  else if s.activeRequest = some text then (s, false)
  else if s.isModelLoading || s.isModelUnloading || s.isProviderBusy then (s, false)
  else if s.isRateLimited && !providerIsOllama s.provider then (s, false)
  else
    ({ s with
        messages := s.messages ++ [userMsg text],
        lastUserMessage := text,
        isLoading := true,
        sending := true,
        activeRequest := some text }, true)

/-- Flag updates common to the stream answer handler (AppContext.tsx lines
664-666) and every stream error classification (lines 718-720): clear
awaiting-response, release the single-flight lock, clear the active
request. -/
def streamTerminalRelease (s : CtrlGuards) : CtrlGuards :=
  { s with isLoading := false, sending := false, activeRequest := none }

/-- Flag updates of the fallback success path (AppContext.tsx lines 774-775):
isLoading is cleared and the active request is cleared, but sendingRef is
never written in this block. -/
def fallbackSuccessRelease (s : CtrlGuards) : CtrlGuards :=
  { s with isLoading := false, activeRequest := none }

/-- Flag updates of the fallback failure path (AppContext.tsx lines 787-789):
the catch body is empty, so no flag changes at all. -/
def fallbackFailureRelease (s : CtrlGuards) : CtrlGuards :=
  s

/-- State of the stream-versus-fallback race for one submission: the
closure-captured done flag, the activeRequestRef guard, a count of terminal
Conversation mutations committed for this submission, and whether the
fallback REST request was actually issued. -/
structure FbState where
  done : Bool
  activeRequest : Option String
  terminalCommits : Nat
  fallbackRequested : Bool
deriving DecidableEq

/-- The discrete callbacks of the race (AppContext.tsx lines 627-675 and
737-793): the stream terminal answer event, the fallback timer firing, and
the fallback response resolving after its await. -/
inductive FbEvent where
  | streamAnswer
  | fallbackFire
  | fallbackCommit
deriving DecidableEq

/-- One callback of the stream-versus-fallback race, translated from the
source: the answer handler commits unconditionally (line 650-662) and clears
the guard (line 666); the timer callback tests done and guard match only at
fire time (line 738) before issuing the REST request; the resumed callback
after the await commits unconditionally (line 771) whenever the request was
issued. -/
def fbStep (text : String) (s : FbState) : FbEvent → FbState
  | .streamAnswer =>
      { s with done := true, activeRequest := none,
               terminalCommits := s.terminalCommits + 1 }
  | .fallbackFire =>
      if !s.done && s.activeRequest = some text then
        { s with fallbackRequested := true }
      else
        s
  | .fallbackCommit =>
      if s.fallbackRequested then
        { s with terminalCommits := s.terminalCommits + 1,
                 activeRequest := none, fallbackRequested := false }
      else
        s

/-- Race state of a submission that has just passed the guards for the given
text (done false, guard set, nothing committed). -/
def fbInit (text : String) : FbState :=
  { done := false, activeRequest := some text,
    terminalCommits := 0, fallbackRequested := false }

/-- The minimum visible duration of an indicator before the final message may
replace it (AppContext.tsx line 657), in milliseconds. -/
def minVisibleMs : Nat := 450

/-- The instant at which replaceFinal runs, as scheduled by the answer
handler (AppContext.tsx lines 656-662): when the indicator is visible and has
been for less than the minimum, the replacement is deferred by the remainder;
otherwise it runs at the answer instant. -/
def replaceFinalTime (indicatorShown : Bool) (shownAt answerAt : Nat) : Nat :=
  let elapsed := if indicatorShown then answerAt - shownAt else 0
  if indicatorShown && decide (elapsed < minVisibleMs) then
    answerAt + (minVisibleMs - elapsed)
  else
    answerAt

/-- Rate-limit effect of the stream answer handler (AppContext.tsx lines
667-669): start the cooldown only when the response was not a cache hit. -/
def streamAnswerRateLimit (cached : Bool) (prov : Option String)
    (rl : RateLimitState) : RateLimitState :=
  if cached then rl else startRateLimitCooldown prov rl

/-- Rate-limit effect of the fallback success path (AppContext.tsx lines
776-781): start the cooldown only when the response was not a cache hit and
the selected provider is not ollama. -/
def fallbackAnswerRateLimit (cached : Bool) (prov : Option String)
    (rl : RateLimitState) : RateLimitState :=
  if !cached && !providerIsOllama prov then startRateLimitCooldown prov rl else rl

/-- The transient model-busy notice state: the flag, its text, and the
instant at which the scheduled auto-clear callback will run. -/
structure BusyState where
  isModelBusy : Bool
  busyText : Option String
  autoClearAt : Option Nat
deriving DecidableEq

/-- The auto-clear delay of the busy notice (AppContext.tsx line 322), in
milliseconds: 3 time-units of the spec. -/
def busyAutoClearDelay : Nat := 3000

/-- Embedding of the setBusy helper (AppContext.tsx lines 314-326): set the
flag and text; when turning busy on, schedule the auto-clear callback for
busyAutoClearDelay from now. -/
def setBusy (busy : Bool) (text : Option String) (now : Nat) (b : BusyState) : BusyState :=
  { isModelBusy := busy,
    busyText := text,
    autoClearAt := if busy then some (now + busyAutoClearDelay) else b.autoClearAt }

/-- The scheduled auto-clear callback of setBusy (AppContext.tsx lines
319-322): clear the flag and the text. -/
def busyAutoClear (_b : BusyState) : BusyState :=
  { isModelBusy := false, busyText := none, autoClearAt := none }

/-- The busy-notice text of the local-provider rate-limit branch
(AppContext.tsx line 690). -/
def busyNoticeText : String := "Model is busy (loading/unloading). Please wait..."

/-- The fixed user-facing rate-limit error content (AppContext.tsx line 697
and FastAPIClient.ts line 101). -/
def rateLimitErrorText : String :=
  "Rate limit exceeded. Please wait before sending another message."

/-- Connection status values of the controller (AppContext.tsx line 265). -/
inductive ConnStatus where
  | online
  | offline
  | checking
deriving DecidableEq

/-- Controller state read and written by the stream error handler. -/
structure ErrorState where
  rl : RateLimitState
  busy : BusyState
  connection : ConnStatus
  messages : List Msg
  isLoading : Bool
  sending : Bool
  activeRequest : Option String
deriving DecidableEq

/-- Embedding of the stream error event handler (AppContext.tsx lines
676-721): classify by rate-limit text and provider, then in every branch
clear awaiting-response, release the single-flight lock and clear the active
request. -/
def streamErrorHandler (msg : String) (isConnectionError : Bool)
    (prov : Option String) (now : Nat) (s : ErrorState) : ErrorState :=
  let s1 :=
    if jsIncludes (jsToLower msg) "rate limit" && providerIsOllama prov then
      { s with busy := setBusy true (some busyNoticeText) now s.busy,
               connection := .online }
    else if jsIncludes (jsToLower msg) "rate limit" then
      { s with rl := startRateLimitCooldown prov s.rl,
               messages := replaceLast (errMsgOf rateLimitErrorText) s.messages,
               connection := .online }
    else if isConnectionError then
      { s with connection := .offline }
    else
      { s with messages := replaceLast (errMsgOf msg) s.messages }
  { s1 with isLoading := false, sending := false, activeRequest := none }

/-- The parameters streamChat accepts (FastAPIClient.ts lines 149-158).  The
controller call site (AppContext.tsx lines 587-600) also passes systemPrompt
and unloadAfterCall, but the transport client declares and reads neither. -/
structure StreamChatParams where
  message : String
  model : Option String
  temperature : Option Int
  memoryToken : Option String
  disableLongMemoryRecall : Option Bool
  disableAllMemoryRecall : Option Bool
deriving DecidableEq

/-- Embedding of the JavaScript truthiness test on an optional boolean. -/
def jsTruthyBool (o : Option Bool) : Bool :=
  match o with
  | some b => b
  | none => false

/-- The query parameters streamChat sets on the server-sent event URL, in
source order (FastAPIClient.ts lines 160-168): message always; model,
temperature and memoryToken when present (strings must be truthy, so
non-empty); the two recall flags when truthy; clientId always. -/
def streamChatQuery (p : StreamChatParams) (clientId : String) :
    List (String × String) :=
  [("message", p.message)]
  ++ (match p.model with
      | some m => if m = "" then [] else [("model", m)]
      | none => [])
  ++ (match p.temperature with
      | some t => [("temperature", toString t)]
      | none => [])
  ++ (match p.memoryToken with
      | some tk => if tk = "" then [] else [("memoryToken", tk)]
      | none => [])
  ++ (if jsTruthyBool p.disableLongMemoryRecall then
        [("disableLongMemoryRecall", "true")] else [])
  ++ (if jsTruthyBool p.disableAllMemoryRecall then
        [("disableAllMemoryRecall", "true")] else [])
  ++ [("clientId", clientId)]

/-- Whether a built query carries a parameter with the given key. -/
def queryHasKey (q : List (String × String)) (k : String) : Bool :=
  q.any fun kv => kv.1 = k

/-- Token usage counts of a chat response (FastAPIClient.ts lines 43-47). -/
structure Usage where
  promptTokens : Nat
  completionTokens : Nat
  totalTokens : Nat
deriving DecidableEq

/-- The ChatResponse shape of FastAPIClient.ts lines 37-48, with the fields
the claims touch. -/
structure ChatResponseM where
  message : String
  model : Option String
  cached : Option Bool
  finishReason : Option String
  usage : Option Usage
deriving DecidableEq

/-- The ApiError shape of FastAPIClient.ts lines 62-67. -/
structure ApiErrorM where
  message : String
  status : Option Nat
  isRateLimited : Option Bool
  isNetworkError : Option Bool
deriving DecidableEq

/-- The outcome of the underlying HTTP POST as sendChatMessage observes it:
a successful response, an HTTP error response with a status and an optional
server-supplied message, or no response at all (network failure). -/
inductive HttpOutcome where
  | success (resp : ChatResponseM)
  | httpError (status : Nat) (errMessage : Option String)
  | networkFailure
deriving DecidableEq

/-- The default message of the local-provider 429 response (FastAPIClient.ts
line 95). -/
def modelBusyDefaultMsg : String := "Model busy, please try again."

/-- The network failure message (FastAPIClient.ts line 110). -/
def networkErrorText : String :=
  "Network error. Please check your connection and try again."

/-- The generic API error message (FastAPIClient.ts line 118). -/
def unexpectedErrorText : String :=
  "An unexpected error occurred. Please try again."

/-- Embedding of sendChatMessage (FastAPIClient.ts lines 79-122): a 429
response under the ollama provider is converted into a normal ChatResponse
with cached false; a 429 under any other provider is rethrown as a
rate-limited ApiError; a missing response is a network ApiError; any other
error status is a generic ApiError. -/
def sendChatMessageModel (out : HttpOutcome) (prov : Option String) :
    Except ApiErrorM ChatResponseM :=
  match out with
  | .success r => .ok r
  | .networkFailure =>
      .error { message := networkErrorText, status := none,
               isRateLimited := none, isNetworkError := some true }
  | .httpError st eMsg =>
      if st = 429 then
        if providerIsOllama prov then
          .ok { message := jsOrDefault eMsg modelBusyDefaultMsg,
                model := none, cached := some false,
                finishReason := none, usage := none }
        else
          .error { message := jsOrDefault eMsg rateLimitErrorText,
                   status := some 429, isRateLimited := some true,
                   isNetworkError := none }
      else
        .error { message := jsOrDefault eMsg unexpectedErrorText,
                 status := some st, isRateLimited := none,
                 isNetworkError := none }

/-- A concrete streamChat call: a message with a memory token and both recall
flags set. -/
def sampleStreamParams : StreamChatParams :=
  { message := "hi", model := none, temperature := none,
    memoryToken := some "tok", disableLongMemoryRecall := some true,
    disableAllMemoryRecall := some true }

/-- A controller state awaiting a response, as the stream error handler can
observe it. -/
def errSample : ErrorState :=
  { rl := { active := false, remaining := 0 },
    busy := { isModelBusy := false, busyText := none, autoClearAt := none },
    connection := .online, messages := [userMsg "hi"], isLoading := true,
    sending := true, activeRequest := some "hi" }

/-- A controller state with a submission for the text hello in flight. -/
def inFlightCtrl : CtrlGuards :=
  { sending := true, activeRequest := some "hello", isModelLoading := false,
    isModelUnloading := false, isProviderBusy := false, isRateLimited := false,
    provider := some "gemini", messages := [userMsg "hello"], isLoading := true,
    lastUserMessage := "hello" }

theorem charsLead_self_append (p r : List Char) : charsLead p (p ++ r) = true := by
  induction p with
  | nil => rfl
  | cons a as ih => simp [charsLead, ih]

theorem jsStartsWith_agentTag (s : String) :
    jsStartsWith (agentTag ++ s) agentTag = true := by
  show charsLead agentTag.data (agentTag ++ s).data = true
  rw [String.data_append]
  exact charsLead_self_append _ _

/-- Every single conversation mutation a submission can run preserves the
indicator invariant and indicator well-formedness. -/
theorem convStep_preserves (ms : List Msg) (e : ConvEvent)
    (hinv : indicatorOnlyLast ms) (hwf : indicatorWF ms) :
    indicatorOnlyLast (convStep ms e) ∧ indicatorWF (convStep ms e) := by
  cases e with
  | agentFire status =>
      constructor
      · intro m hm
        rw [convStep, indicatorFire, List.dropLast_concat] at hm
        obtain ⟨hms, hpred⟩ := List.mem_filter.mp hm
        cases hmi : m.isIndicator with
        | false => rfl
        | true =>
            obtain ⟨hrole, hstart⟩ := hwf m hms hmi
            simp [isAgentAssistant, hrole, hstart] at hpred
      · intro m hm hmi
        rw [convStep, indicatorFire] at hm
        rcases List.mem_append.mp hm with hl | hr
        · exact hwf m (List.mem_of_mem_filter hl) hmi
        · rw [List.mem_singleton.mp hr]
          exact ⟨rfl, jsStartsWith_agentTag _⟩
  | agentUpdate status =>
      rcases List.eq_nil_or_concat ms with rfl | ⟨L, b, rfl⟩
      · exact ⟨hinv, hwf⟩
      · rw [List.concat_eq_append] at hinv hwf ⊢
        simp only [convStep, indicatorUpdate, List.getLast?_concat]
        by_cases hc : isTrailingIndicatorShape b = true
        · rw [if_pos hc, List.dropLast_concat]
          obtain ⟨hagent, hind⟩ := Bool.and_eq_true_iff.mp hc
          obtain ⟨hrole, _⟩ := Bool.and_eq_true_iff.mp hagent
          constructor
          · intro m hm
            rw [List.dropLast_concat] at hm
            exact hinv m (by rw [List.dropLast_concat]; exact hm)
          · intro m hm hmi
            rcases List.mem_append.mp hm with hl | hr
            · exact hwf m (List.mem_append_left _ hl) hmi
            · rw [List.mem_singleton.mp hr]
              exact ⟨of_decide_eq_true hrole, jsStartsWith_agentTag _⟩
        · rw [if_neg hc]
          exact ⟨hinv, hwf⟩
  | answer content =>
      rcases List.eq_nil_or_concat ms with rfl | ⟨L, b, rfl⟩
      · constructor
        · intro m hm
          simp [convStep, replaceFinal] at hm
        · intro m hm hmi
          rw [convStep, replaceFinal] at hm
          simp at hm
          rw [hm] at hmi
          simp [answerMsg] at hmi
      · rw [List.concat_eq_append] at hinv hwf ⊢
        simp only [convStep, replaceFinal, List.getLast?_concat]
        by_cases hc : isTrailingIndicatorShape b = true
        · rw [if_pos hc, List.dropLast_concat]
          constructor
          · intro m hm
            rw [List.dropLast_concat] at hm
            exact hinv m (by rw [List.dropLast_concat]; exact hm)
          · intro m hm hmi
            rcases List.mem_append.mp hm with hl | hr
            · exact hwf m (List.mem_append_left _ hl) hmi
            · rw [List.mem_singleton.mp hr] at hmi
              simp [answerMsg] at hmi
        · rw [if_neg hc]
          constructor
          · intro m hm
            rw [List.dropLast_concat] at hm
            cases hmi : m.isIndicator with
            | false => rfl
            | true =>
                rcases List.mem_append.mp hm with hl | hr
                · rw [hinv m (by rw [List.dropLast_concat]; exact hl)] at hmi
                  exact absurd hmi (by simp)
                · rw [List.mem_singleton.mp hr] at hmi
                  obtain ⟨hrole, hstart⟩ := hwf b (List.mem_concat_self L b) hmi
                  exact absurd (by
                    simp [isTrailingIndicatorShape, isAgentAssistant, hrole,
                      hstart, hmi]) hc
          · intro m hm hmi
            rcases List.mem_append.mp hm with hl | hr
            · exact hwf m hl hmi
            · rw [List.mem_singleton.mp hr] at hmi
              simp [answerMsg] at hmi
  | errorReplace content =>
      rcases List.eq_nil_or_concat ms with rfl | ⟨L, b, rfl⟩
      · constructor
        · intro m hm
          simp [convStep, replaceLast] at hm
        · intro m hm hmi
          rw [convStep, replaceLast] at hm
          simp at hm
          rw [hm] at hmi
          simp [errMsgOf] at hmi
      · rw [List.concat_eq_append] at hinv hwf ⊢
        rw [convStep, replaceLast, if_neg (by simp), List.dropLast_concat]
        constructor
        · intro m hm
          rw [List.dropLast_concat] at hm
          exact hinv m (by rw [List.dropLast_concat]; exact hm)
        · intro m hm hmi
          rcases List.mem_append.mp hm with hl | hr
          · exact hwf m (List.mem_append_left _ hl) hmi
          · rw [List.mem_singleton.mp hr] at hmi
            simp [errMsgOf] at hmi
  | errorKeep => exact ⟨hinv, hwf⟩

/-- The preservation of the previous lemma extends over any event sequence. -/
theorem convFold_preserves (events : List ConvEvent) (ms : List Msg)
    (hinv : indicatorOnlyLast ms) (hwf : indicatorWF ms) :
    indicatorOnlyLast (events.foldl convStep ms) ∧
    indicatorWF (events.foldl convStep ms) := by
  induction events generalizing ms with
  | nil => exact ⟨hinv, hwf⟩
  | cons e rest ih =>
      obtain ⟨h1, h2⟩ := convStep_preserves ms e hinv hwf
      exact ih (convStep ms e) h1 h2

/-- A list whose non-final elements are never indicators holds at most one
indicator in total. -/
theorem countP_indicator_le_one (ms : List Msg) (h : indicatorOnlyLast ms) :
    ms.countP (fun m => m.isIndicator) ≤ 1 := by
  rcases List.eq_nil_or_concat ms with rfl | ⟨L, b, rfl⟩
  · simp
  · rw [List.concat_eq_append] at h ⊢
    rw [List.countP_append]
    have hL : L.countP (fun m => m.isIndicator) = 0 := by
      rw [List.countP_eq_zero]
      intro m hm
      simp [h m (by rw [List.dropLast_concat]; exact hm)]
    rw [hL]
    simp [List.countP_cons]
    cases b.isIndicator <;> simp

/-- Claim C1: while a submission is in flight (the single-flight lock
sendingRef is held), any call to sendToAgent, with equal or different text,
is rejected by the first guard: the controller state is returned unchanged
(no user Message appended, no flag written) and no stream connection is
opened. -/
theorem sendToAgent_inflight_noop (s : CtrlGuards) (text : String)
    (h : s.sending = true) : sendToAgentEntry s text = (s, false) := by
  simp [sendToAgentEntry, h]

theorem sendToAgent_inflight_noop_witness :
    inFlightCtrl.sending = true ∧
    sendToAgentEntry inFlightCtrl "different text" = (inFlightCtrl, false) :=
  ⟨rfl, sendToAgent_inflight_noop inFlightCtrl "different text" rfl⟩

/-- Claim C2 is refuted: in the interleaving where the fallback timer fires
while the guard still matches, the stream answer then arrives during the
fallback await, and the fallback response finally commits, the code runs two
terminal Conversation mutations for the one submission, because the guard is
checked only at fire time and never re-validated before the fallback commit.
The second and third conjuncts show the half of the claim that does hold: a
fired timer whose guard no longer matches (superseded submission) or whose
submission is already done performs zero mutation. -/
theorem fallback_double_commit :
    ([FbEvent.fallbackFire, FbEvent.streamAnswer, FbEvent.fallbackCommit].foldl
        (fbStep "hello") (fbInit "hello")).terminalCommits = 2 ∧
    [FbEvent.fallbackFire, FbEvent.fallbackCommit].foldl (fbStep "hello")
        { done := false, activeRequest := some "other", terminalCommits := 0,
          fallbackRequested := false } =
      { done := false, activeRequest := some "other", terminalCommits := 0,
        fallbackRequested := false } ∧
    [FbEvent.fallbackFire, FbEvent.fallbackCommit].foldl (fbStep "hello")
        { done := true, activeRequest := none, terminalCommits := 1,
          fallbackRequested := false } =
      { done := true, activeRequest := none, terminalCommits := 1,
        fallbackRequested := false } := by
  refine ⟨?_, ?_, ?_⟩ <;> decide

/-- Claim C3 is refuted on the fallback paths: the stream answer and stream
error handlers do clear awaiting-response and release the single-flight lock,
but the fallback success path never clears sendingRef, so a subsequent
sendToAgent call is rejected by the in-flight guard, and the fallback failure
path (empty catch body) clears nothing at all. -/
theorem fallback_leaves_lock_held :
    (streamTerminalRelease inFlightCtrl).sending = false ∧
    (streamTerminalRelease inFlightCtrl).isLoading = false ∧
    (streamTerminalRelease inFlightCtrl).activeRequest = none ∧
    (fallbackSuccessRelease inFlightCtrl).isLoading = false ∧
    (fallbackSuccessRelease inFlightCtrl).sending = true ∧
    sendToAgentEntry (fallbackSuccessRelease inFlightCtrl) "next" =
      (fallbackSuccessRelease inFlightCtrl, false) ∧
    fallbackFailureRelease inFlightCtrl = inFlightCtrl := by
  refine ⟨rfl, rfl, rfl, rfl, rfl, ?_, rfl⟩
  decide

/-- Claim C4: starting from a Conversation satisfying the indicator
invariant (as the Conversation does when a submission begins), any sequence
of agent, answer and error events leaves at most one Message with isIndicator
true, and any message before the last is never an indicator, so an indicator
present is always the last element. -/
theorem conversation_indicator_invariant (events : List ConvEvent) (ms : List Msg)
    (hinv : indicatorOnlyLast ms) (hwf : indicatorWF ms) :
    indicatorOnlyLast (events.foldl convStep ms) ∧
    (events.foldl convStep ms).countP (fun m => m.isIndicator) ≤ 1 := by
  obtain ⟨h1, _⟩ := convFold_preserves events ms hinv hwf
  exact ⟨h1, countP_indicator_le_one _ h1⟩

theorem conversation_indicator_invariant_witness :
    indicatorOnlyLast ([] : List Msg) ∧ indicatorWF ([] : List Msg) ∧
    (indicatorOnlyLast ([ConvEvent.agentFire "thinking",
        ConvEvent.agentUpdate "typing", ConvEvent.answer "hello there"].foldl
        convStep []) ∧
      ([ConvEvent.agentFire "thinking", ConvEvent.agentUpdate "typing",
        ConvEvent.answer "hello there"].foldl convStep []).countP
        (fun m => m.isIndicator) ≤ 1) :=
  ⟨by simp [indicatorOnlyLast], by simp [indicatorWF],
   conversation_indicator_invariant _ _ (by simp [indicatorOnlyLast])
     (by simp [indicatorWF])⟩

/-- Claim C5: when the indicator became visible at shownAt and the terminal
answer arrives at answerAt, the final replacement runs at the maximum of
answerAt and shownAt plus the 450ms minimum; with no indicator visible it
runs immediately at answerAt. -/
theorem replaceFinal_min_visible (shownAt answerAt : Nat)
    (h : shownAt ≤ answerAt) :
    replaceFinalTime true shownAt answerAt = max answerAt (shownAt + minVisibleMs) ∧
    replaceFinalTime false shownAt answerAt = answerAt := by
  unfold replaceFinalTime minVisibleMs
  constructor
  · simp only [Bool.true_and, decide_eq_true_eq, if_true]
    split <;> omega
  · simp

theorem replaceFinal_min_visible_witness :
    (0 : Nat) ≤ (100 : Nat) ∧
    (replaceFinalTime true 0 100 = max 100 (0 + minVisibleMs) ∧
      replaceFinalTime false 0 100 = 100) :=
  ⟨by decide, replaceFinal_min_visible 0 100 (by decide)⟩

/-- Claim C6 counterexample: under the local (ollama) provider an answer
carrying cached false does not start the Rate Limit Timer: the stream path
call to start is suppressed to an inactive state, and the fallback path skips
the call entirely, so the timer is inactive after both. -/
theorem cachedFalse_local_no_cooldown :
    (streamAnswerRateLimit false (some "ollama")
        { active := false, remaining := 0 }).active = false ∧
    fallbackAnswerRateLimit false (some "ollama")
        { active := false, remaining := 0 } =
      { active := false, remaining := 0 } := by
  decide

/-- Claim C6 amended: an answer with cached true never starts the Rate Limit
Timer on either the stream or the fallback path; an answer with cached false
starts it (active with 60 remaining) whenever the selected provider is not
the local one. -/
theorem answer_cooldown_gating (prov : Option String) (rl : RateLimitState) :
    streamAnswerRateLimit true prov rl = rl ∧
    fallbackAnswerRateLimit true prov rl = rl ∧
    (providerIsOllama prov = false →
      streamAnswerRateLimit false prov rl = { active := true, remaining := 60 } ∧
      fallbackAnswerRateLimit false prov rl = { active := true, remaining := 60 }) := by
  refine ⟨rfl, rfl, ?_⟩
  intro h
  constructor <;>
    simp [streamAnswerRateLimit, fallbackAnswerRateLimit, startRateLimitCooldown, h]

theorem answer_cooldown_gating_witness :
    providerIsOllama (some "gemini") = false ∧
    (streamAnswerRateLimit false (some "gemini") { active := false, remaining := 0 } =
        { active := true, remaining := 60 } ∧
      fallbackAnswerRateLimit false (some "gemini") { active := false, remaining := 0 } =
        { active := true, remaining := 60 }) :=
  ⟨by decide,
   (answer_cooldown_gating (some "gemini") { active := false, remaining := 0 }).2.2
     (by decide)⟩

/-- Claim C8 counterexample: with the local provider selected, calling the
cooldown start on an active state does not leave the state unchanged: it
forces active to false and remaining to zero (the input had active true and
30 seconds remaining). -/
theorem startCooldown_local_changes_state :
    (startRateLimitCooldown (some "ollama") { active := true, remaining := 30 }).active
        = false ∧
    (startRateLimitCooldown (some "ollama") { active := true, remaining := 30 }).remaining
        = 0 := by
  decide

/-- Claim C8 amended: with the local provider selected, start never begins a
cooldown; it forces RateLimitState to inactive with zero remaining, so the
state is unchanged exactly when it was already inactive with zero
remaining. -/
theorem startCooldown_local_clears (prov : Option String) (rl : RateLimitState)
    (h : providerIsOllama prov = true) :
    startRateLimitCooldown prov rl = { active := false, remaining := 0 } := by
  simp [startRateLimitCooldown, h]

theorem startCooldown_local_clears_witness :
    providerIsOllama (some "ollama") = true ∧
    startRateLimitCooldown (some "ollama") { active := true, remaining := 30 } =
      { active := false, remaining := 0 } :=
  ⟨by decide,
   startCooldown_local_clears (some "ollama") { active := true, remaining := 30 }
     (by decide)⟩

/-- Claim C10: a 429 response while the local provider is selected does not
throw: sendChatMessage returns a normal ChatResponse whose message is the
server-supplied error text (or the fixed busy default when absent) and whose
cached flag is false; under any other provider the 429 is thrown as an
ApiError with isRateLimited true. -/
theorem sendChatMessage_429 (eMsg : Option String) (prov : Option String) :
    (providerIsOllama prov = true →
      sendChatMessageModel (.httpError 429 eMsg) prov =
        .ok { message := jsOrDefault eMsg modelBusyDefaultMsg, model := none,
              cached := some false, finishReason := none, usage := none }) ∧
    (providerIsOllama prov = false →
      sendChatMessageModel (.httpError 429 eMsg) prov =
        .error { message := jsOrDefault eMsg rateLimitErrorText,
                 status := some 429, isRateLimited := some true,
                 isNetworkError := none }) := by
  constructor <;> intro h <;> simp [sendChatMessageModel, h]

theorem sendChatMessage_429_witness :
    (providerIsOllama (some "ollama") = true ∧
      sendChatMessageModel (.httpError 429 (some "busy now")) (some "ollama") =
        .ok { message := "busy now", model := none, cached := some false,
              finishReason := none, usage := none }) ∧
    (providerIsOllama (some "gemini") = false ∧
      sendChatMessageModel (.httpError 429 none) (some "gemini") =
        .error { message := rateLimitErrorText, status := some 429,
                 isRateLimited := some true, isNetworkError := none }) :=
  ⟨⟨by decide, (sendChatMessage_429 (some "busy now") (some "ollama")).1 (by decide)⟩,
   ⟨by decide, (sendChatMessage_429 none (some "gemini")).2 (by decide)⟩⟩

/-- Claim C7: a stream error whose message text indicates rate limiting,
received while the local provider is selected, leaves RateLimitState
untouched (no cooldown starts), leaves the Conversation untouched, sets the
transient busy notice with its text and schedules its auto-clear for
busyAutoClearDelay (3000ms, the 3 time-units of the spec) from now; the
scheduled auto-clear and the clear issued by a later response both drop the
flag. -/
theorem local_rate_limit_busy_notice (msg : String) (ce : Bool)
    (prov : Option String) (now : Nat) (s : ErrorState)
    (h1 : jsIncludes (jsToLower msg) "rate limit" = true)
    (h2 : providerIsOllama prov = true) :
    (streamErrorHandler msg ce prov now s).rl = s.rl ∧
    (streamErrorHandler msg ce prov now s).messages = s.messages ∧
    (streamErrorHandler msg ce prov now s).busy.isModelBusy = true ∧
    (streamErrorHandler msg ce prov now s).busy.busyText = some busyNoticeText ∧
    (streamErrorHandler msg ce prov now s).busy.autoClearAt =
      some (now + busyAutoClearDelay) ∧
    (streamErrorHandler msg ce prov now s).isLoading = false ∧
    (streamErrorHandler msg ce prov now s).sending = false ∧
    (busyAutoClear (streamErrorHandler msg ce prov now s).busy).isModelBusy
        = false ∧
    (setBusy false none now (streamErrorHandler msg ce prov now s).busy).isModelBusy
        = false := by
  simp [streamErrorHandler, h1, h2, setBusy, busyAutoClear]

theorem local_rate_limit_busy_notice_witness :
    jsIncludes (jsToLower "Rate limit exceeded") "rate limit" = true ∧
    providerIsOllama (some "ollama") = true ∧
    ((streamErrorHandler "Rate limit exceeded" false (some "ollama") 7
        errSample).rl = errSample.rl ∧
      (streamErrorHandler "Rate limit exceeded" false (some "ollama") 7
        errSample).messages = errSample.messages ∧
      (streamErrorHandler "Rate limit exceeded" false (some "ollama") 7
        errSample).busy.isModelBusy = true ∧
      (streamErrorHandler "Rate limit exceeded" false (some "ollama") 7
        errSample).busy.busyText = some busyNoticeText ∧
      (streamErrorHandler "Rate limit exceeded" false (some "ollama") 7
        errSample).busy.autoClearAt = some (7 + busyAutoClearDelay) ∧
      (streamErrorHandler "Rate limit exceeded" false (some "ollama") 7
        errSample).isLoading = false ∧
      (streamErrorHandler "Rate limit exceeded" false (some "ollama") 7
        errSample).sending = false ∧
      (busyAutoClear (streamErrorHandler "Rate limit exceeded" false
        (some "ollama") 7 errSample).busy).isModelBusy = false ∧
      (setBusy false none 7 (streamErrorHandler "Rate limit exceeded" false
        (some "ollama") 7 errSample).busy).isModelBusy = false) :=
  ⟨by decide, by decide,
   local_rate_limit_busy_notice "Rate limit exceeded" false (some "ollama") 7
     errSample (by decide) (by decide)⟩

/-- Claim C9 is refuted for two of the listed fields: the query the transport
client builds for the server-sent event connection never contains a
systemPrompt or an unloadAfterCall parameter for any input (the controller
passes both to streamChat, which drops them), while the concrete evaluation
shows that message, memoryToken, disableLongMemoryRecall and
disableAllMemoryRecall are carried. -/
theorem streamChat_query_drops_fields (p : StreamChatParams) (cid : String) :
    queryHasKey (streamChatQuery p cid) "systemPrompt" = false ∧
    queryHasKey (streamChatQuery p cid) "unloadAfterCall" = false ∧
    streamChatQuery sampleStreamParams "cid" =
      [("message", "hi"), ("memoryToken", "tok"),
       ("disableLongMemoryRecall", "true"), ("disableAllMemoryRecall", "true"),
       ("clientId", "cid")] := by
  obtain ⟨msg, mdl, tmp, tok, dl, da⟩ := p
  refine ⟨?_, ?_, by decide⟩ <;>
    cases mdl <;> cases tmp <;> cases tok <;> cases dl <;> cases da <;>
      simp [streamChatQuery, queryHasKey, jsTruthyBool]

end ReactAgent

